import Mathlib

/-!
# Verification of the Diet-Plan meal dashboard core

Shallow embedding of the reviewed core of the Diet-Plan repository:

* `ai_service.py` — the recipe lookup service (`query_ai`, model resolution,
  recipe cache keyed by normalized dish name and model id, upstream call
  outcome handling);
* `main.py` — the day-view aggregation (`dashboard`: date resolution with
  nearest-date fallback, slot grouping, calorie totals), the week view
  (`history`: Monday-anchored seven-day buckets), and the admin meal edit
  (`edit_meal`).

Modelling conventions:

* SQLite tables become lists of records; row order models the underlying
  row ordering the queries observe.
* Calendar dates are integers counting days, with day `0` chosen to be a
  Monday so that Python's `date.weekday()` becomes `d % 7`.
* Python strings are Lean `String`s; `.lower()` and `.strip()` are embedded
  over `String.data` (`pyLower`, `pyStrip`), and Python string truthiness
  (`if cached:`) is embedded by an explicit emptiness test.
* The single outbound HTTP call is embedded by an `HttpOutcome` value in the
  environment describing what the call would produce (success content,
  timeout, non-2xx status with body, or any other raised failure); the
  `httpCalls` counter of the result records whether the call was performed.
* `REAL` columns are embedded as exact rationals (`Rat`).
-/

/-! ## Python string primitives -/

/-- Python `s.lower()` over the character data (ASCII case mapping,
as `Char.toLower`). -/
def pyLower (s : String) : String :=
  String.mk (s.data.map Char.toLower)

/-- Strip whitespace from both ends of a character list (Python `str.strip()`
on the underlying data). -/
def listStrip (l : List Char) : List Char :=
  ((l.dropWhile Char.isWhitespace).reverse.dropWhile Char.isWhitespace).reverse

/-- Python `s.strip()`. -/
def pyStrip (s : String) : String :=
  String.mk (listStrip s.data)

/-- Python `s[:200]`: truncate a string to at most 200 characters
(`e.response.text[:200]` in `ai_service.py` line 154). -/
def pyTake200 (s : String) : String :=
  String.mk (s.data.take 200)

/-! ## Data model: `ai_models` table and recipe cache (`database.py` 73-81, 98-105) -/

/-- One row of the `ai_models` table: provider, model identifier, display
name, optional stored credential (empty string when absent) and the default
flag (`is_default` integer column, read through `= 1`). -/
structure AIModel where
  provider : String
  model_id : String
  display_name : String
  api_key : String
  is_default : Bool
deriving Repr, DecidableEq

/-- Cache key: (normalized dish name, model identifier). -/
abbrev CacheKey := String × String

/-- The `ai_recipe_cache` table: association list from key to stored HTML,
with at most one entry per key (the table has `UNIQUE(dish_name, model_id)`). -/
abbrev RecipeCache := List (CacheKey × String)

/-- `SELECT recipe_html FROM ai_recipe_cache WHERE dish_name = ? AND model_id = ?`:
first entry with the given key, if any. -/
def lookupKey : RecipeCache → CacheKey → Option String
  | [], _ => none
  | e :: rest, key => if e.1 = key then some e.2 else lookupKey rest key

/-- `INSERT OR REPLACE` keyed by the `UNIQUE(dish_name, model_id)` index:
replace the entry under the key when present, else append a new entry. -/
def insertOrReplace : RecipeCache → CacheKey → String → RecipeCache
  | [], key, html => [(key, html)]
  | e :: rest, key, html =>
    if e.1 = key then (key, html) :: rest else e :: insertOrReplace rest key html

/-- The cache key computed by `get_cached_recipe` (`ai_service.py` line 40):
`dish_name.lower().strip()` paired with the model id. -/
def getCachedRecipeKey (dish_name model_id : String) : CacheKey :=
  (pyStrip (pyLower dish_name), model_id)

/-- The cache key computed by `cache_recipe` (`ai_service.py` line 53):
`dish_name.lower().strip()` paired with the model id. -/
def cacheRecipeKey (dish_name model_id : String) : CacheKey :=
  (pyStrip (pyLower dish_name), model_id)

/-- `get_cached_recipe` (`ai_service.py` 35-45): look the normalized key up,
returning the stored HTML or `None`. -/
def get_cached_recipe (cache : RecipeCache) (dish_name model_id : String) :
    Option String :=
  lookupKey cache (getCachedRecipeKey dish_name model_id)

/-- `cache_recipe` (`ai_service.py` 48-57): insert-or-replace the rendered
HTML under the normalized key. -/
def cache_recipe (cache : RecipeCache) (dish_name model_id recipe_html : String) :
    RecipeCache :=
  insertOrReplace cache (cacheRecipeKey dish_name model_id) recipe_html

/-- `get_default_model` (`ai_service.py` 13-23): first row with
`is_default = 1`, else the first row at all, else `None`. -/
def get_default_model (models : List AIModel) : Option AIModel :=
  match models.find? (fun m => m.is_default) with
  | some m => some m
  | none => models.head?

/-! ## The recipe lookup service (`ai_service.py` 95-156) -/

/-- What the single outbound HTTP POST of `query_ai` would produce:
the first completion's extracted message content on success, or one of the
failure modes caught by the three `except` arms (timeout, non-2xx status
with response body, any other raised error with its description). -/
inductive HttpOutcome where
  | success (content : String)
  | timeout
  | statusError (code : Nat) (body : String)
  | otherError (msg : String)
deriving Repr, DecidableEq

/-- The environment `query_ai` runs against: the `ai_models` rows, the
recipe cache, the two per-provider environment-variable credentials
(`GROQ_API_KEY`, `OPENROUTER_API_KEY`; empty string when unset, matching
`os.environ.get(..., "")`), and the outcome the upstream call would have. -/
structure Env where
  models : List AIModel
  cache : RecipeCache
  groq_api_key : String
  openrouter_api_key : String
  outcome : HttpOutcome
deriving Repr, DecidableEq

/-- Observable result of one `query_ai` call: the returned HTML string, the
cache state after the call, and how many outbound HTTP calls and cache
writes were performed. -/
structure QueryResult where
  response : String
  cache : RecipeCache
  httpCalls : Nat
  cacheWrites : Nat
deriving Repr, DecidableEq

/-- Provider dispatch of `query_ai` (`ai_service.py` 109-115): each known
provider has a fixed endpoint and an environment-variable fallback for the
stored credential (`api_key or os.environ.get(...)`); an unknown provider
yields `none` (the `else` arm returning the unknown-provider fragment). -/
def resolveApiKey (model : AIModel) (env : Env) : Option String :=
  if model.provider = "groq" then
    some (if model.api_key ≠ "" then model.api_key else env.groq_api_key)
  else if model.provider = "openrouter" then
    some (if model.api_key ≠ "" then model.api_key else env.openrouter_api_key)
  else none

/-- The `try`/`except` block of `query_ai` (`ai_service.py` 141-156): perform
the POST; on success cache the extracted content and return it, on each
failure return the corresponding error fragment and leave the cache alone. -/
def performUpstream (cache : RecipeCache) (dish_name model_id : String)
    (outcome : HttpOutcome) : QueryResult :=
  match outcome with
  | .success content =>
    ⟨content, cache_recipe cache dish_name model_id content, 1, 1⟩
  | .timeout =>
    ⟨"<p class=\x27error\x27>AI service timed out. Please try again.</p>", cache, 1, 0⟩
  | .statusError code body =>
    ⟨"<p class=\x27error\x27>AI service error: " ++ toString code ++ " — "
      ++ pyTake200 body ++ "</p>", cache, 1, 0⟩
  | .otherError msg =>
    ⟨"<p class=\x27error\x27>Error querying AI: " ++ msg ++ "</p>", cache, 1, 0⟩

/-- `query_ai` after the cache check (`ai_service.py` 105-156): resolve the
provider endpoint and credential, short-circuit on unknown provider or
missing credential, else perform the upstream call. -/
def queryUpstream (env : Env) (dish_name : String) (model : AIModel) : QueryResult :=
  match resolveApiKey model env with
  | none =>
    ⟨"<p class=\x27error\x27>Unknown AI provider configured.</p>", env.cache, 0, 0⟩
  | some api_key =>
    if api_key = "" then
      ⟨"<p class=\x27error\x27>API key not configured for " ++ model.provider
        ++ ". Set the API key in admin settings or environment variable.</p>",
        env.cache, 0, 0⟩
    else performUpstream env.cache dish_name model.model_id env.outcome

/-- `query_ai` (`ai_service.py` 95-156): resolve the model, check the cache
(`if cached:` is Python truthiness, so a present-but-empty entry does not
hit), else go upstream. -/
def query_ai (env : Env) (dish_name : String) : QueryResult :=
  match get_default_model env.models with
  | none =>
    ⟨"<p class=\x27error\x27>No AI model configured. Ask admin to add one.</p>",
      env.cache, 0, 0⟩
  | some model =>
    match get_cached_recipe env.cache dish_name model.model_id with
    | some cached =>
      if cached ≠ "" then ⟨cached, env.cache, 0, 0⟩
      else queryUpstream env dish_name model
    | none => queryUpstream env dish_name model

/-- The common prefix of every user-visible error fragment produced by
`query_ai` (`<p class=`, quote, `error`, quote, `>`). -/
def errPrefix : List Char := "<p class=\x27error\x27>".data

/-- Does the string start with the error-fragment prefix? -/
def isErrorFragment (s : String) : Bool :=
  s.data.take errPrefix.length == errPrefix

/-! ## Data model: meal plans and preparation checks (`database.py` 46-71) -/

/-- One row of the `meal_plans` table. `REAL` nutrition columns are embedded
as exact rationals; `profile_id` is `none` for shared/global meals. -/
structure MealRow where
  id : Nat
  plan_date : Int
  meal_type : String
  dish_name : String
  description : String
  calories : Int
  protein_g : Rat
  carbs_g : Rat
  fat_g : Rat
  fiber_g : Rat
  profile_id : Option Nat
deriving Repr, DecidableEq

/-- One row of the `meal_checks` table (unique per (profile, meal plan)). -/
structure MealCheck where
  profile_id : Nat
  meal_plan_id : Nat
  is_prepared : Bool
deriving Repr, DecidableEq

/-- `MEAL_TYPE_ORDER` (`main.py` line 105). -/
def MEAL_TYPE_ORDER : List String :=
  ["breakfast", "morning_snack", "lunch", "afternoon_snack", "dinner", "evening_snack"]

/-- `MEAL_TYPE_LABELS` (`main.py` 106-113). -/
def MEAL_TYPE_LABELS : List (String × String) :=
  [("breakfast", "🌅 Breakfast"), ("morning_snack", "🍎 Morning Snack"),
   ("lunch", "☀️ Lunch"), ("afternoon_snack", "🫐 Afternoon Snack"),
   ("dinner", "🌙 Dinner"), ("evening_snack", "🌜 Evening Snack")]

/-- `MEAL_TYPE_LABELS.get(mt, mt)` (`main.py` line 427). -/
def labelFor (mt : String) : String :=
  match MEAL_TYPE_LABELS.find? (fun e => e.1 = mt) with
  | some e => e.2
  | none => mt

/-- The visibility predicate `profile_id IS NULL OR profile_id = ?` used by
every meal query of `main.py`. -/
def visibleTo (pid : Nat) (r : MealRow) : Bool :=
  r.profile_id = none ∨ r.profile_id = some pid

/-- `SELECT * FROM meal_plans WHERE plan_date = ? AND (profile_id IS NULL OR
profile_id = ?)` (`main.py` 221-224 / 240-243), before any `ORDER BY`. -/
def mealsOn (rows : List MealRow) (pid : Nat) (d : Int) : List MealRow :=
  rows.filter (fun r => r.plan_date = d ∧ visibleTo pid r)

/-- `SELECT meal_plan_id FROM meal_checks WHERE profile_id = ? AND
is_prepared = 1` (`main.py` 247-251). -/
def checkedIdsFor (checks : List MealCheck) (pid : Nat) : List Nat :=
  (checks.filter (fun c => c.profile_id = pid ∧ c.is_prepared)).map
    (fun c => c.meal_plan_id)

/-- One comparison step of the `ORDER BY ABS(julianday(plan_date) -
julianday(?)) ASC LIMIT 1` scan (`main.py` 228-234): keep the earlier row
unless the new row is strictly closer to today. -/
def nearStep (today : Int) (acc : Option Int) (d : Int) : Option Int :=
  match acc with
  | none => some d
  | some b => if (d - today).natAbs < (b - today).natAbs then some d else some b

/-- `ORDER BY ABS(julianday(plan_date) - julianday(?)) ASC LIMIT 1`
(`main.py` 228-234): first date of minimal absolute day distance, in
underlying row order. -/
def nearestFold (today : Int) (dates : List Int) : Option Int :=
  dates.foldl (nearStep today) none

/-- The nearest-populated-date query of the dashboard (`main.py` 227-237):
over all meal rows visible to the profile, the plan date closest to today. -/
def nearestPlanDate (rows : List MealRow) (pid : Nat) (today : Int) : Option Int :=
  nearestFold today ((rows.filter (fun r => visibleTo pid r)).map (fun r => r.plan_date))

/-- One entry of the per-slot meal dicts built by the dashboard
(`main.py` 264-274). -/
structure DisplayMeal where
  id : Nat
  dish_name : String
  description : String
  calories : Int
  protein_g : Rat
  carbs_g : Rat
  fat_g : Rat
  fiber_g : Rat
  is_checked : Bool
deriving Repr, DecidableEq

/-- The dict literal appended by the dashboard loop (`main.py` 264-274). -/
def displayOf (checked : List Nat) (m : MealRow) : DisplayMeal :=
  ⟨m.id, m.dish_name, m.description, m.calories, m.protein_g, m.carbs_g,
   m.fat_g, m.fiber_g, checked.contains m.id⟩

/-- One iteration of the dashboard grouping loop (`main.py` 261-274): append
the meal to its slot's list when the slot is a known meal type. -/
def organizeStep (checked : List Nat) (org : List (String × List DisplayMeal))
    (meal : MealRow) : List (String × List DisplayMeal) :=
  if MEAL_TYPE_ORDER.contains meal.meal_type then
    org.map (fun g => if g.1 = meal.meal_type then (g.1, g.2 ++ [displayOf checked meal]) else g)
  else org

/-- The dashboard grouping (`main.py` 253-274): all six slots initialised
empty in display order, then each loaded meal appended to its slot. -/
def organizeMeals (meals : List MealRow) (checked : List Nat) :
    List (String × List DisplayMeal) :=
  meals.foldl (organizeStep checked)
    (MEAL_TYPE_ORDER.map (fun mt => (mt, ([] : List DisplayMeal))))

/-- `ORDER BY meal_type` of the day query (`main.py` line 241). -/
def mealTypeLe (a b : MealRow) : Prop := a.meal_type ≤ b.meal_type

instance : DecidableRel mealTypeLe :=
  fun a b => (inferInstance : Decidable (a.meal_type ≤ b.meal_type))

/-- The slice of the dashboard view the claims are about. -/
structure DashboardView where
  selectedDate : Int
  organized : List (String × List DisplayMeal)
  total_calories : Int
  checked_calories : Int
deriving Repr, DecidableEq

/-- Date resolution of the dashboard (`main.py` 200-237): an explicitly
requested date is used as-is; with no requested date, today is used unless
today has zero matching rows, in which case the nearest populated date (if
any) replaces it. `view_date` is `none` when no date was requested. -/
def resolveDashboardDate (rows : List MealRow) (pid : Nat) (today : Int)
    (view_date : Option Int) : Int :=
  match view_date with
  | some d => d
  | none =>
    if (mealsOn rows pid today).length = 0 then
      match nearestPlanDate rows pid today with
      | some d => d
      | none => today
    else today

/-- The dashboard aggregation for a resolved date (`main.py` 239-278): the
day's visible meals ordered by meal type (240-244), the prepared-check set
(246-251), the slot grouping (253-274) and the two calorie totals (276-278). -/
def buildDayView (rows : List MealRow) (checks : List MealCheck) (pid : Nat)
    (selected : Int) : DashboardView :=
  let meals := List.insertionSort mealTypeLe (mealsOn rows pid selected)
  let checked := checkedIdsFor checks pid
  let organized := organizeMeals meals checked
  let total_cal := (meals.map (fun m => m.calories)).sum
  let checked_cal :=
    ((meals.filter (fun m => checked.contains m.id)).map (fun m => m.calories)).sum
  ⟨selected, organized, total_cal, checked_cal⟩

/-- The dashboard day view (`main.py` 194-302, aggregation slice): date
resolution followed by the per-day aggregation. -/
def dashboard (rows : List MealRow) (checks : List MealCheck) (pid : Nat)
    (today : Int) (view_date : Option Int) : DashboardView :=
  buildDayView rows checks pid (resolveDashboardDate rows pid today view_date)

/-! ## The week view (`main.py` 379-449) -/

/-- One meal entry of a week-view day bucket (`main.py` 425-430). -/
structure HistoryMeal where
  dish_name : String
  meal_type : String
  calories : Int
  is_checked : Bool
deriving Repr, DecidableEq

/-- One day bucket of the week view (`main.py` 411-419). -/
structure HistoryDay where
  date : Int
  meals : List HistoryMeal
  total : Nat
  prepared : Nat
deriving Repr, DecidableEq

/-- `start_of_week = today - timedelta(days=today.weekday()) +
timedelta(weeks=week_offset)` (`main.py` line 387), with day `0` a Monday so
`weekday today = today % 7`. -/
def startOfWeek (today week_offset : Int) : Int :=
  today - today % 7 + 7 * week_offset

/-- `ORDER BY plan_date, meal_type` of the week query (`main.py` line 397). -/
def weekOrder (a b : MealRow) : Prop :=
  a.plan_date < b.plan_date ∨ (a.plan_date = b.plan_date ∧ a.meal_type ≤ b.meal_type)

instance : DecidableRel weekOrder :=
  fun a b =>
    (inferInstance : Decidable (a.plan_date < b.plan_date ∨
      (a.plan_date = b.plan_date ∧ a.meal_type ≤ b.meal_type)))

/-- One iteration of the week-view loop (`main.py` 421-433): append the meal
to its day's bucket (only range-filtered rows reach here, so the
`if d_key in days` guard is the date match) and bump the counts. -/
def historyStep (checked : List Nat) (days : List HistoryDay) (meal : MealRow) :
    List HistoryDay :=
  days.map (fun day =>
    if day.date = meal.plan_date then
      { day with
        meals := day.meals ++
          [⟨meal.dish_name, labelFor meal.meal_type, meal.calories,
            checked.contains meal.id⟩],
        total := day.total + 1,
        prepared := day.prepared + (if checked.contains meal.id then 1 else 0) }
    else day)

/-- The week view (`main.py` 379-449, aggregation slice): Monday anchor of
the offset week (385-388), the week's visible meals (395-400), the prepared
set (402-407), seven day buckets initialised empty (409-419) and filled by
the loop (421-433). -/
def history (rows : List MealRow) (checks : List MealCheck) (pid : Nat)
    (today : Int) (week_offset : Int) : List HistoryDay :=
  let start := startOfWeek today week_offset
  let weekMeals := List.insertionSort weekOrder
    (rows.filter (fun r => start ≤ r.plan_date ∧ r.plan_date ≤ start + 6 ∧ visibleTo pid r))
  let checked := checkedIdsFor checks pid
  let days0 := (List.range 7).map (fun i => HistoryDay.mk (start + i) [] 0 0)
  weekMeals.foldl (historyStep checked) days0

/-! ## The admin meal edit (`main.py` 870-889) -/

/-- The form fields `edit_meal` receives (`main.py` 871-875); `profile_id`
defaults to `0`, meaning "everyone". -/
structure EditForm where
  plan_date : Int
  meal_type : String
  dish_name : String
  calories : Int
  protein_g : Rat
  carbs_g : Rat
  fat_g : Rat
  profile_id : Nat
deriving Repr, DecidableEq

/-- The `UPDATE meal_plans SET plan_date = ?, meal_type = ?, dish_name = ?,
calories = ?, protein_g = ?, carbs_g = ?, fat_g = ?, profile_id = ?
WHERE id = ?` of `edit_meal` (`main.py` 879-888), with
`pid = profile_id if profile_id > 0 else None` and `dish_name.strip()`. -/
def edit_meal (rows : List MealRow) (meal_id : Nat) (f : EditForm) : List MealRow :=
  rows.map (fun r =>
    if r.id = meal_id then
      { r with
        plan_date := f.plan_date, meal_type := f.meal_type,
        dish_name := pyStrip f.dish_name, calories := f.calories,
        protein_g := f.protein_g, carbs_g := f.carbs_g, fat_g := f.fat_g,
        profile_id := if f.profile_id > 0 then some f.profile_id else none }
    else r)

/-! ## Helper lemmas: characters and normalization -/

theorem char_eq_iff_toNat (c d : Char) : c = d ↔ c.toNat = d.toNat := by
  constructor
  · rintro rfl; rfl
  · intro h; exact Char.ext (UInt32.ext h)

theorem isWhitespace_iff_toNat (c : Char) :
    c.isWhitespace = true ↔ (c.toNat = 32 ∨ c.toNat = 9 ∨ c.toNat = 13 ∨ c.toNat = 10) := by
  have h1 : (' ' : Char).toNat = 32 := rfl
  have h2 : ('\t' : Char).toNat = 9 := rfl
  have h3 : ('\r' : Char).toNat = 13 := rfl
  have h4 : ('\n' : Char).toNat = 10 := rfl
  unfold Char.isWhitespace
  simp only [Bool.or_eq_true, decide_eq_true_eq, char_eq_iff_toNat, h1, h2, h3, h4]
  tauto

/-- ASCII lowering maps whitespace to whitespace and non-whitespace to
non-whitespace. -/
theorem isWhitespace_toLower (c : Char) :
    (Char.toLower c).isWhitespace = c.isWhitespace := by
  unfold Char.toLower
  simp only []
  by_cases h : Char.toNat c >= 65 ∧ Char.toNat c <= 90
  case pos =>
    rw [if_pos h]
    have hval : (Char.toNat c + 32).isValidChar := Or.inl (by omega)
    have hv : (Char.ofNat (Char.toNat c + 32)).toNat = Char.toNat c + 32 := by
      rw [Char.ofNat, dif_pos hval]; rfl
    have f1 : (Char.ofNat (Char.toNat c + 32)).isWhitespace = false := by
      rw [Bool.eq_false_iff]
      intro hw
      rcases (isWhitespace_iff_toNat _).1 hw with h' | h' | h' | h' <;> omega
    have f2 : c.isWhitespace = false := by
      rw [Bool.eq_false_iff]
      intro hw
      rcases (isWhitespace_iff_toNat _).1 hw with h' | h' | h' | h' <;> omega
    rw [f1, f2]
  case neg => rw [if_neg h]

theorem listStrip_map_toLower (l : List Char) :
    listStrip (l.map Char.toLower) = (listStrip l).map Char.toLower := by
  have hp : (Char.isWhitespace ∘ Char.toLower) = Char.isWhitespace := by
    funext c; exact isWhitespace_toLower c
  unfold listStrip
  rw [List.dropWhile_map, hp, ← List.map_reverse, List.dropWhile_map, hp, ← List.map_reverse]

/-- Lowering then stripping equals stripping then lowering. -/
theorem pyStrip_pyLower (s : String) : pyStrip (pyLower s) = pyLower (pyStrip s) := by
  show String.mk (listStrip (s.data.map Char.toLower))
      = String.mk ((listStrip s.data).map Char.toLower)
  rw [listStrip_map_toLower]

/-! ## Helper lemmas: the recipe cache -/

theorem lookupKey_insertOrReplace_self (c : RecipeCache) (k : CacheKey) (h : String) :
    lookupKey (insertOrReplace c k h) k = some h := by
  induction c with
  | nil => simp [insertOrReplace, lookupKey]
  | cons e rest ih =>
    by_cases he : e.1 = k
    · simp [insertOrReplace, he, lookupKey]
    · simp [insertOrReplace, he, lookupKey, ih]

theorem lookupKey_insertOrReplace_ne (c : RecipeCache) (k k' : CacheKey) (h : String)
    (hne : k' ≠ k) :
    lookupKey (insertOrReplace c k h) k' = lookupKey c k' := by
  have hkk : k ≠ k' := Ne.symm hne
  induction c with
  | nil => simp [insertOrReplace, lookupKey, hkk]
  | cons e rest ih =>
    by_cases he : e.1 = k
    · have hek : ¬ e.1 = k' := by rw [he]; exact hkk
      simp [insertOrReplace, he, lookupKey, hkk, hek]
    · by_cases he' : e.1 = k'
      · simp [insertOrReplace, he, lookupKey, he', hne]
      · simp [insertOrReplace, he, lookupKey, he', ih]

/-! ## Helper lemmas: error fragments -/

theorem string_data_append (s t : String) : (s ++ t).data = s.data ++ t.data := by
  cases s; cases t; rfl

theorem isErrorFragment_append (s t : String) (h : isErrorFragment s = true) :
    isErrorFragment (s ++ t) = true := by
  unfold isErrorFragment at h ⊢
  rw [string_data_append]
  rw [beq_iff_eq] at h ⊢
  have hlen : errPrefix.length ≤ s.data.length := by
    have h2 : (s.data.take errPrefix.length).length = errPrefix.length := by rw [h]
    rw [List.length_take] at h2
    omega
  rw [List.take_append_of_le_length hlen]
  exact h

theorem ne_empty_of_isErrorFragment (s : String) (h : isErrorFragment s = true) :
    s ≠ "" := by
  intro he
  rw [he] at h
  exact absurd h (by decide)

/-! ## Helper lemmas: evaluation of `query_ai` -/

theorem query_ai_eq_no_model (env : Env) (dish_name : String)
    (hm : get_default_model env.models = none) :
    query_ai env dish_name =
      ⟨"<p class=\x27error\x27>No AI model configured. Ask admin to add one.</p>",
        env.cache, 0, 0⟩ := by
  simp [query_ai, hm]

theorem query_ai_eq_hit (env : Env) (dish_name : String) (model : AIModel) (c : String)
    (hm : get_default_model env.models = some model)
    (hc : get_cached_recipe env.cache dish_name model.model_id = some c)
    (hne : c ≠ "") :
    query_ai env dish_name = ⟨c, env.cache, 0, 0⟩ := by
  simp [query_ai, hm, hc, hne]

theorem query_ai_eq_upstream (env : Env) (dish_name : String) (model : AIModel)
    (hm : get_default_model env.models = some model)
    (hc : get_cached_recipe env.cache dish_name model.model_id = none ∨
      get_cached_recipe env.cache dish_name model.model_id = some "") :
    query_ai env dish_name = queryUpstream env dish_name model := by
  rcases hc with hc | hc <;> simp [query_ai, hm, hc]

theorem queryUpstream_eq_unknown (env : Env) (dish_name : String) (model : AIModel)
    (hk : resolveApiKey model env = none) :
    queryUpstream env dish_name model =
      ⟨"<p class=\x27error\x27>Unknown AI provider configured.</p>", env.cache, 0, 0⟩ := by
  simp [queryUpstream, hk]

theorem queryUpstream_eq_no_key (env : Env) (dish_name : String) (model : AIModel)
    (hk : resolveApiKey model env = some "") :
    queryUpstream env dish_name model =
      ⟨"<p class=\x27error\x27>API key not configured for " ++ model.provider
        ++ ". Set the API key in admin settings or environment variable.</p>",
        env.cache, 0, 0⟩ := by
  simp [queryUpstream, hk]

theorem queryUpstream_eq_perform (env : Env) (dish_name : String) (model : AIModel)
    (k : String) (hk : resolveApiKey model env = some k) (hke : k ≠ "") :
    queryUpstream env dish_name model =
      performUpstream env.cache dish_name model.model_id env.outcome := by
  simp [queryUpstream, hk, hke]

/-- Classification of the post-cache path: an error fragment, or the upstream
success content. -/
theorem queryUpstream_classified (env : Env) (dish_name : String) (model : AIModel) :
    isErrorFragment (queryUpstream env dish_name model).response = true
    ∨ env.outcome = HttpOutcome.success (queryUpstream env dish_name model).response := by
  cases hk : resolveApiKey model env with
  | none => rw [queryUpstream_eq_unknown env dish_name model hk]; exact Or.inl rfl
  | some key =>
    by_cases hke : key = ""
    · rw [hke] at hk
      rw [queryUpstream_eq_no_key env dish_name model hk]
      exact Or.inl (isErrorFragment_append _ _ (isErrorFragment_append _ _ (by decide)))
    · rw [queryUpstream_eq_perform env dish_name model key hk hke]
      unfold performUpstream
      cases ho : env.outcome with
      | success content => exact Or.inr rfl
      | timeout => exact Or.inl rfl
      | statusError code body =>
        exact Or.inl (isErrorFragment_append _ _ (isErrorFragment_append _ _
          (isErrorFragment_append _ _ (isErrorFragment_append _ _ (by decide)))))
      | otherError msg =>
        exact Or.inl (isErrorFragment_append _ _ (isErrorFragment_append _ _ (by decide)))

/-- C1: for every dish name, `query_ai` always returns an HTML string at its
API boundary: the call is a total function of its environment, and the
returned string is a user-visible HTML error fragment (every failure mode),
a stored cache value, or the upstream success content — never a propagated
exception. -/
theorem query_ai_returns_html (env : Env) (dish_name : String) :
    isErrorFragment (query_ai env dish_name).response = true
    ∨ (∃ m, get_default_model env.models = some m ∧
        get_cached_recipe env.cache dish_name m.model_id
          = some (query_ai env dish_name).response)
    ∨ env.outcome = HttpOutcome.success (query_ai env dish_name).response := by
  cases hm : get_default_model env.models with
  | none =>
    rw [query_ai_eq_no_model env dish_name hm]
    exact Or.inl rfl
  | some model =>
    cases hc : get_cached_recipe env.cache dish_name model.model_id with
    | none =>
      rw [query_ai_eq_upstream env dish_name model hm (Or.inl hc)]
      rcases queryUpstream_classified env dish_name model with h | h
      · exact Or.inl h
      · exact Or.inr (Or.inr h)
    | some cached =>
      by_cases hne : cached ≠ ""
      · rw [query_ai_eq_hit env dish_name model cached hm hc hne]
        exact Or.inr (Or.inl ⟨model, rfl, hc⟩)
      · rw [not_not] at hne
        rw [hne] at hc
        rw [query_ai_eq_upstream env dish_name model hm (Or.inr hc)]
        rcases queryUpstream_classified env dish_name model with h | h
        · exact Or.inl h
        · exact Or.inr (Or.inr h)

/-! ## C2: cache-hit behaviour -/

/-- A configured default model used by the C2 counterexample. -/
def cexModel : AIModel := ⟨"groq", "m", "M", "k", true⟩

/-- Environment whose cache holds an entry with empty stored HTML under the
exact key `query_ai` computes for dish `"d"`. -/
def cexEnv : Env := ⟨[cexModel], [(("d", "m"), "")], "", "", HttpOutcome.success "FRESH"⟩

/-- C2 counterexample: a cache entry exists under the computed key (stored
HTML `""`), yet `query_ai` does not return the stored value and performs an
upstream HTTP call — Python's `if cached:` treats a present-but-empty entry
as a miss. -/
theorem query_ai_cache_hit_cex :
    get_default_model cexEnv.models = some cexModel ∧
    get_cached_recipe cexEnv.cache "d" cexModel.model_id = some "" ∧
    (query_ai cexEnv "d").response = "FRESH" ∧
    (query_ai cexEnv "d").httpCalls = 1 := by
  decide

/-- C2 (amended): if a cache entry with NON-EMPTY stored HTML exists under
the key (normalized dish name, resolved model identifier), `query_ai`
returns the stored HTML verbatim, performs no upstream HTTP call, no cache
write, and leaves the cache unchanged. -/
theorem query_ai_cache_hit_verbatim (env : Env) (dish_name : String)
    (model : AIModel) (c : String)
    (hm : get_default_model env.models = some model)
    (hc : get_cached_recipe env.cache dish_name model.model_id = some c)
    (hne : c ≠ "") :
    (query_ai env dish_name).response = c ∧
    (query_ai env dish_name).httpCalls = 0 ∧
    (query_ai env dish_name).cacheWrites = 0 ∧
    (query_ai env dish_name).cache = env.cache := by
  rw [query_ai_eq_hit env dish_name model c hm hc hne]
  exact ⟨rfl, rfl, rfl, rfl⟩

/-- Model used by the C2 witness environment. -/
def hitModel : AIModel := ⟨"groq", "m1", "Model", "", false⟩

/-- Witness environment: a non-empty cached entry for `"chicken curry"`. -/
def hitEnv : Env :=
  ⟨[hitModel], [(("chicken curry", "m1"), "<h3>Cached</h3>")], "", "",
    HttpOutcome.timeout⟩

theorem query_ai_cache_hit_verbatim_witness :
    (query_ai hitEnv "  Chicken Curry ").response = "<h3>Cached</h3>" ∧
    (query_ai hitEnv "  Chicken Curry ").httpCalls = 0 ∧
    (query_ai hitEnv "  Chicken Curry ").cacheWrites = 0 ∧
    (query_ai hitEnv "  Chicken Curry ").cache = hitEnv.cache :=
  query_ai_cache_hit_verbatim hitEnv "  Chicken Curry " hitModel "<h3>Cached</h3>"
    (by decide) (by decide) (by decide)

/-! ## C3: cache miss followed by upstream success -/

/-- C3: on a cache miss (no entry, or the present-but-empty entry the code
treats as a miss), when the upstream call succeeds, `query_ai` returns the
first completion's content, performs exactly one HTTP call and exactly one
cache write storing that content verbatim under the computed key
(overwriting any existing value there), leaving every other key unchanged. -/
theorem query_ai_miss_success (env : Env) (dish_name : String) (model : AIModel)
    (k content : String)
    (hm : get_default_model env.models = some model)
    (hc : get_cached_recipe env.cache dish_name model.model_id = none ∨
      get_cached_recipe env.cache dish_name model.model_id = some "")
    (hk : resolveApiKey model env = some k) (hke : k ≠ "")
    (hout : env.outcome = HttpOutcome.success content) :
    (query_ai env dish_name).response = content ∧
    (query_ai env dish_name).httpCalls = 1 ∧
    (query_ai env dish_name).cacheWrites = 1 ∧
    (query_ai env dish_name).cache
      = cache_recipe env.cache dish_name model.model_id content ∧
    get_cached_recipe (query_ai env dish_name).cache dish_name model.model_id
      = some content ∧
    (∀ key, key ≠ cacheRecipeKey dish_name model.model_id →
      lookupKey (query_ai env dish_name).cache key = lookupKey env.cache key) := by
  rw [query_ai_eq_upstream env dish_name model hm hc,
      queryUpstream_eq_perform env dish_name model k hk hke, hout]
  unfold performUpstream
  refine ⟨rfl, rfl, rfl, rfl, ?_, ?_⟩
  · show get_cached_recipe (cache_recipe env.cache dish_name model.model_id content)
        dish_name model.model_id = some content
    unfold get_cached_recipe cache_recipe
    exact lookupKey_insertOrReplace_self _ _ _
  · intro key hkey
    show lookupKey (cache_recipe env.cache dish_name model.model_id content) key
        = lookupKey env.cache key
    unfold cache_recipe
    exact lookupKey_insertOrReplace_ne _ _ _ _ hkey

/-- Model used by the C3 witness environment. -/
def missModel : AIModel := ⟨"groq", "m2", "Model", "sk", true⟩

/-- Witness environment: empty cache, upstream call succeeds. -/
def missEnv : Env := ⟨[missModel], [], "", "", HttpOutcome.success "<h3>Fresh</h3>"⟩

theorem query_ai_miss_success_witness :
    (query_ai missEnv "Dal").response = "<h3>Fresh</h3>" ∧
    (query_ai missEnv "Dal").httpCalls = 1 ∧
    (query_ai missEnv "Dal").cacheWrites = 1 ∧
    get_cached_recipe (query_ai missEnv "Dal").cache "Dal" "m2"
      = some "<h3>Fresh</h3>" := by
  have h := query_ai_miss_success missEnv "Dal" missModel "sk" "<h3>Fresh</h3>"
    (by decide) (Or.inl (by decide)) (by decide) (by decide) rfl
  exact ⟨h.1, h.2.1, h.2.2.1, h.2.2.2.2.1⟩

/-! ## C4: failed upstream calls write nothing and return error fragments -/

theorem pyTake200_le (s : String) : (pyTake200 s).length ≤ 200 := by
  show (s.data.take 200).length ≤ 200
  rw [List.length_take]
  omega

/-- C4: for every failed upstream call (timeout, non-2xx status, or any other
failure), `query_ai` performs zero cache writes, leaves the cache unchanged,
and returns a non-empty error fragment identifying the failure kind; in the
non-2xx case the fragment embeds the status code and a body excerpt of at
most 200 characters. -/
theorem query_ai_failure_no_write (env : Env) (dish_name : String) (model : AIModel)
    (k : String)
    (hm : get_default_model env.models = some model)
    (hc : get_cached_recipe env.cache dish_name model.model_id = none ∨
      get_cached_recipe env.cache dish_name model.model_id = some "")
    (hk : resolveApiKey model env = some k) (hke : k ≠ "")
    (hfail : ∀ content, env.outcome ≠ HttpOutcome.success content) :
    (query_ai env dish_name).cache = env.cache ∧
    (query_ai env dish_name).cacheWrites = 0 ∧
    (query_ai env dish_name).httpCalls = 1 ∧
    (query_ai env dish_name).response ≠ "" ∧
    isErrorFragment (query_ai env dish_name).response = true ∧
    (env.outcome = HttpOutcome.timeout →
      (query_ai env dish_name).response =
        "<p class=\x27error\x27>AI service timed out. Please try again.</p>") ∧
    (∀ code body, env.outcome = HttpOutcome.statusError code body →
      (query_ai env dish_name).response =
        "<p class=\x27error\x27>AI service error: " ++ toString code ++ " — "
          ++ pyTake200 body ++ "</p>" ∧ (pyTake200 body).length ≤ 200) ∧
    (∀ msg, env.outcome = HttpOutcome.otherError msg →
      (query_ai env dish_name).response =
        "<p class=\x27error\x27>Error querying AI: " ++ msg ++ "</p>") := by
  rw [query_ai_eq_upstream env dish_name model hm hc,
      queryUpstream_eq_perform env dish_name model k hk hke]
  cases ho : env.outcome with
  | success content => exact absurd ho (hfail content)
  | timeout =>
    unfold performUpstream
    exact ⟨rfl, rfl, rfl, ne_empty_of_isErrorFragment _ rfl, rfl, fun _ => rfl,
      fun _ _ h => HttpOutcome.noConfusion h, fun _ h => HttpOutcome.noConfusion h⟩
  | statusError code body =>
    unfold performUpstream
    have hef : isErrorFragment
        ("<p class=\x27error\x27>AI service error: " ++ toString code ++ " — "
          ++ pyTake200 body ++ "</p>") = true :=
      isErrorFragment_append _ _ (isErrorFragment_append _ _
        (isErrorFragment_append _ _ (isErrorFragment_append _ _ rfl)))
    refine ⟨rfl, rfl, rfl, ne_empty_of_isErrorFragment _ hef, hef,
      fun h => HttpOutcome.noConfusion h, ?_, fun _ h => HttpOutcome.noConfusion h⟩
    intro code' body' h
    injection h with h1 h2
    subst h1; subst h2
    exact ⟨rfl, pyTake200_le body⟩
  | otherError msg =>
    unfold performUpstream
    have hef : isErrorFragment
        ("<p class=\x27error\x27>Error querying AI: " ++ msg ++ "</p>") = true :=
      isErrorFragment_append _ _ (isErrorFragment_append _ _ rfl)
    refine ⟨rfl, rfl, rfl, ne_empty_of_isErrorFragment _ hef, hef,
      fun h => HttpOutcome.noConfusion h, fun _ _ h => HttpOutcome.noConfusion h, ?_⟩
    intro msg' h
    injection h with h1
    subst h1
    exact rfl

/-- Model used by the C4 witness environment. -/
def failModel : AIModel := ⟨"openrouter", "m3", "M", "", false⟩

/-- Witness environment: empty cache, upstream answers HTTP 500. -/
def failEnv : Env := ⟨[failModel], [], "", "rk", HttpOutcome.statusError 500 "boom"⟩

theorem query_ai_failure_no_write_witness :
    (query_ai failEnv "X").cache = failEnv.cache ∧
    (query_ai failEnv "X").cacheWrites = 0 ∧
    (query_ai failEnv "X").response =
      "<p class=\x27error\x27>AI service error: " ++ toString (500 : Nat) ++ " — "
        ++ pyTake200 "boom" ++ "</p>" := by
  have h := query_ai_failure_no_write failEnv "X" failModel "rk"
    (by decide) (Or.inl (by decide)) (by decide) (by decide)
    (fun content h => HttpOutcome.noConfusion h)
  exact ⟨h.1, h.2.1, (h.2.2.2.2.2.2.1 500 "boom" rfl).1⟩

/-! ## C5: read and write normalize the cache key identically -/

/-- C5: for dish names equal up to letter case and leading/trailing
whitespace (their stripped, case-folded forms agree), the lookup key of
`get_cached_recipe` and the store key of `cache_recipe` coincide:
normalization is case-fold plus trim, applied identically on read and
write. -/
theorem cache_key_normalization (d1 d2 model_id : String)
    (h : pyLower (pyStrip d1) = pyLower (pyStrip d2)) :
    getCachedRecipeKey d1 model_id = cacheRecipeKey d2 model_id := by
  unfold getCachedRecipeKey cacheRecipeKey
  rw [pyStrip_pyLower, pyStrip_pyLower, h]

theorem cache_key_normalization_witness :
    pyLower (pyStrip "  ChIcKeN CuRry ") = pyLower (pyStrip "chicken curry") ∧
    getCachedRecipeKey "  ChIcKeN CuRry " "m" = cacheRecipeKey "chicken curry" "m" :=
  ⟨by decide, cache_key_normalization "  ChIcKeN CuRry " "chicken curry" "m" (by decide)⟩

/-! ## C6: three-branch model resolution -/

/-- C6: model resolution prefers a row flagged default, else any configured
row, else none — and with no configuration at all `query_ai` returns the
fixed "no model configured" fragment with no further processing (cache
untouched, no HTTP call, no cache write). -/
theorem model_resolution_three_branch (models : List AIModel) (env : Env)
    (dish_name : String) :
    ((∃ m ∈ models, m.is_default = true) →
      ∃ m, get_default_model models = some m ∧ m.is_default = true ∧ m ∈ models) ∧
    (models ≠ [] → ∃ m, get_default_model models = some m ∧ m ∈ models) ∧
    (models = [] → get_default_model models = none) ∧
    (env.models = [] →
      query_ai env dish_name =
        ⟨"<p class=\x27error\x27>No AI model configured. Ask admin to add one.</p>",
          env.cache, 0, 0⟩) := by
  refine ⟨?_, ?_, ?_, ?_⟩
  · rintro ⟨m, hmem, hdef⟩
    have hs : (models.find? (fun m => m.is_default)).isSome := by
      rw [List.find?_isSome]
      exact ⟨m, hmem, hdef⟩
    cases hf : models.find? (fun m => m.is_default) with
    | none => rw [hf] at hs; simp at hs
    | some m' =>
      refine ⟨m', ?_, ?_, ?_⟩
      · unfold get_default_model; rw [hf]
      · exact List.find?_some hf
      · exact List.mem_of_find?_eq_some hf
  · intro hne
    cases hf : models.find? (fun m => m.is_default) with
    | some m' =>
      exact ⟨m', by unfold get_default_model; rw [hf],
        List.mem_of_find?_eq_some hf⟩
    | none =>
      cases models with
      | nil => exact absurd rfl hne
      | cons a l =>
        refine ⟨a, ?_, List.mem_cons_self a l⟩
        unfold get_default_model
        rw [hf]
        rfl
  · rintro rfl; rfl
  · intro hnil
    apply query_ai_eq_no_model
    rw [hnil]
    rfl

/-- Model table for the C6 witness: the default-flagged second row wins. -/
def modelsW : List AIModel :=
  [⟨"groq", "a", "A", "", false⟩, ⟨"openrouter", "b", "B", "", true⟩]

/-- Environment with no configured model for the C6 witness. -/
def noModelEnv : Env := ⟨[], [(("x", "y"), "z")], "g", "o", HttpOutcome.timeout⟩

theorem model_resolution_three_branch_witness :
    (∃ m, get_default_model modelsW = some m ∧ m.is_default = true ∧ m ∈ modelsW) ∧
    query_ai noModelEnv "Pasta" =
      ⟨"<p class=\x27error\x27>No AI model configured. Ask admin to add one.</p>",
        noModelEnv.cache, 0, 0⟩ := by
  have h := model_resolution_three_branch modelsW noModelEnv "Pasta"
  exact ⟨h.1 ⟨⟨"openrouter", "b", "B", "", true⟩, by decide, rfl⟩, h.2.2.2 rfl⟩

/-! ## Helper lemmas: nearest-date scan -/

theorem nearestFold_go (today : Int) (dates : List Int) :
    ∀ b : Int,
      ∃ r, dates.foldl (nearStep today) (some b) = some r ∧ (r = b ∨ r ∈ dates) ∧
        (r - today).natAbs ≤ (b - today).natAbs ∧
        ∀ x ∈ dates, (r - today).natAbs ≤ (x - today).natAbs := by
  induction dates with
  | nil =>
    intro b
    exact ⟨b, rfl, Or.inl rfl, le_refl _, fun x hx => absurd hx (List.not_mem_nil x)⟩
  | cons d ds ih =>
    intro b
    rw [List.foldl_cons]
    by_cases hlt : (d - today).natAbs < (b - today).natAbs
    · have hstep : nearStep today (some b) d = some d := by simp [nearStep, hlt]
      rw [hstep]
      obtain ⟨r, hr, hmem, hle, hall⟩ := ih d
      refine ⟨r, hr, ?_, le_trans hle (le_of_lt hlt), ?_⟩
      · rcases hmem with rfl | hm
        · exact Or.inr (List.mem_cons_self _ _)
        · exact Or.inr (List.mem_cons_of_mem _ hm)
      · intro x hx
        rcases List.mem_cons.1 hx with rfl | hx'
        · exact hle
        · exact hall x hx'
    · have hstep : nearStep today (some b) d = some b := by simp [nearStep, hlt]
      rw [hstep]
      obtain ⟨r, hr, hmem, hle, hall⟩ := ih b
      refine ⟨r, hr, ?_, hle, ?_⟩
      · rcases hmem with rfl | hm
        · exact Or.inl rfl
        · exact Or.inr (List.mem_cons_of_mem _ hm)
      · intro x hx
        rcases List.mem_cons.1 hx with rfl | hx'
        · exact le_trans hle (not_lt.1 hlt)
        · exact hall x hx'

/-- The nearest scan on a non-empty list returns a member of minimal
absolute distance to today (first such member in row order). -/
theorem nearestFold_spec (today : Int) (dates : List Int) (hne : dates ≠ []) :
    ∃ r, nearestFold today dates = some r ∧ r ∈ dates ∧
      ∀ x ∈ dates, (r - today).natAbs ≤ (x - today).natAbs := by
  cases dates with
  | nil => exact absurd rfl hne
  | cons d ds =>
    unfold nearestFold
    rw [List.foldl_cons]
    obtain ⟨r, hr, hmem, hle, hall⟩ := nearestFold_go today ds d
    refine ⟨r, ?_, ?_, ?_⟩
    · rw [show nearStep today none d = some d from rfl]
      exact hr
    · rcases hmem with rfl | hm
      · exact List.mem_cons_self _ _
      · exact List.mem_cons_of_mem _ hm
    · intro x hx
      rcases List.mem_cons.1 hx with rfl | hx'
      · exact hle
      · exact hall x hx'

/-! ## Helper lemmas: slot grouping and totals -/

theorem organizeStep_fst (checked : List Nat) (org : List (String × List DisplayMeal))
    (meal : MealRow) :
    (organizeStep checked org meal).map Prod.fst = org.map Prod.fst := by
  unfold organizeStep
  by_cases h : MEAL_TYPE_ORDER.contains meal.meal_type
  · rw [if_pos h, List.map_map]
    apply List.map_congr_left
    intro g hg
    by_cases hgt : g.1 = meal.meal_type <;> simp [hgt]
  · rw [if_neg h]

theorem organizeMeals_fold_fst (checked : List Nat) (ms : List MealRow) :
    ∀ org : List (String × List DisplayMeal),
      (ms.foldl (organizeStep checked) org).map Prod.fst = org.map Prod.fst := by
  induction ms with
  | nil => intro org; rfl
  | cons m ms ih => intro org; rw [List.foldl_cons, ih, organizeStep_fst]

/-- The six slot groups are always present, in display order. -/
theorem organizeMeals_fst (meals : List MealRow) (checked : List Nat) :
    (organizeMeals meals checked).map Prod.fst = MEAL_TYPE_ORDER := by
  unfold organizeMeals
  rw [organizeMeals_fold_fst, List.map_map]
  show MEAL_TYPE_ORDER.map (fun mt => mt) = MEAL_TYPE_ORDER
  exact List.map_id' MEAL_TYPE_ORDER

theorem buildDayView_selectedDate (rows : List MealRow) (checks : List MealCheck)
    (pid : Nat) (selected : Int) :
    (buildDayView rows checks pid selected).selectedDate = selected := rfl

theorem buildDayView_total (rows : List MealRow) (checks : List MealCheck)
    (pid : Nat) (selected : Int) :
    (buildDayView rows checks pid selected).total_calories
      = ((mealsOn rows pid selected).map (fun m => m.calories)).sum := by
  have hp : List.Perm (List.insertionSort mealTypeLe (mealsOn rows pid selected))
      (mealsOn rows pid selected) := List.perm_insertionSort _ _
  exact (hp.map (fun m => m.calories)).sum_eq

theorem buildDayView_checked (rows : List MealRow) (checks : List MealCheck)
    (pid : Nat) (selected : Int) :
    (buildDayView rows checks pid selected).checked_calories
      = (((mealsOn rows pid selected).filter
          (fun m => (checkedIdsFor checks pid).contains m.id)).map
            (fun m => m.calories)).sum := by
  have hp : List.Perm (List.insertionSort mealTypeLe (mealsOn rows pid selected))
      (mealsOn rows pid selected) := List.perm_insertionSort _ _
  exact ((hp.filter _).map (fun m => m.calories)).sum_eq

theorem buildDayView_empty (rows : List MealRow) (checks : List MealCheck)
    (pid : Nat) (selected : Int) (h : mealsOn rows pid selected = []) :
    (∀ g ∈ (buildDayView rows checks pid selected).organized, g.2 = []) ∧
    (buildDayView rows checks pid selected).total_calories = 0 ∧
    (buildDayView rows checks pid selected).checked_calories = 0 := by
  unfold buildDayView
  rw [h]
  refine ⟨?_, rfl, rfl⟩
  intro g hg
  simp only [List.insertionSort] at hg
  unfold organizeMeals at hg
  rw [List.foldl_nil] at hg
  obtain ⟨mt, _, rfl⟩ := List.mem_map.1 hg
  rfl

/-! ## C7: nearest-date fallback only without an explicit date -/

/-- C7: the day view's nearest-date fallback applies only when no explicit
date was requested: an explicitly requested date is used as-is (and an
explicitly requested empty date yields empty groupings and zero totals, with
no fallback); with no requested date and today non-empty, today is used;
with no requested date and today empty, the resolved date is a populated
date of minimal absolute day distance over the profile's visible rows. -/
theorem dashboard_date_resolution (rows : List MealRow) (checks : List MealCheck)
    (pid : Nat) (today : Int) :
    (∀ d, (dashboard rows checks pid today (some d)).selectedDate = d) ∧
    (∀ d, mealsOn rows pid d = [] →
      (∀ g ∈ (dashboard rows checks pid today (some d)).organized, g.2 = []) ∧
      (dashboard rows checks pid today (some d)).total_calories = 0 ∧
      (dashboard rows checks pid today (some d)).checked_calories = 0) ∧
    ((mealsOn rows pid today).length ≠ 0 →
      (dashboard rows checks pid today none).selectedDate = today) ∧
    ((mealsOn rows pid today).length = 0 →
      rows.filter (fun r => visibleTo pid r) ≠ [] →
      mealsOn rows pid ((dashboard rows checks pid today none).selectedDate) ≠ [] ∧
      ∀ r ∈ rows, visibleTo pid r = true →
        ((dashboard rows checks pid today none).selectedDate - today).natAbs
          ≤ (r.plan_date - today).natAbs) := by
  refine ⟨fun d => rfl, ?_, ?_, ?_⟩
  · intro d h
    have hd : dashboard rows checks pid today (some d) = buildDayView rows checks pid d := rfl
    rw [hd]
    exact buildDayView_empty rows checks pid d h
  · intro h
    show (resolveDashboardDate rows pid today none) = today
    unfold resolveDashboardDate
    simp only []
    rw [if_neg h]
  · intro h0 hvis
    have hdates : ((rows.filter (fun r => visibleTo pid r)).map
        (fun r => r.plan_date)) ≠ [] := by
      intro hmapnil
      exact hvis (List.map_eq_nil_iff.1 hmapnil)
    obtain ⟨r, hr, hmem, hall⟩ := nearestFold_spec today _ hdates
    have hsel : resolveDashboardDate rows pid today none = r := by
      have hnp : nearestPlanDate rows pid today = some r := hr
      simp [resolveDashboardDate, h0, hnp]
    have hshow : (dashboard rows checks pid today none).selectedDate
        = resolveDashboardDate rows pid today none := rfl
    rw [hshow, hsel]
    obtain ⟨row, hrowf, hpd⟩ := List.mem_map.1 hmem
    obtain ⟨hrowmem, hrowvis⟩ := List.mem_filter.1 hrowf
    constructor
    · apply List.ne_nil_of_mem (a := row)
      apply List.mem_filter.2
      refine ⟨hrowmem, ?_⟩
      simp [hpd, hrowvis]
    · intro s hs hsvis
      have hsf : s ∈ rows.filter (fun r => visibleTo pid r) :=
        List.mem_filter.2 ⟨hs, by simp [hsvis]⟩
      exact hall s.plan_date (List.mem_map_of_mem _ hsf)

/-- Shared meal on day 3 for the C7 witness. -/
def wRow : MealRow := ⟨1, 3, "breakfast", "Oats", "", 300, 0, 0, 0, 0, none⟩

theorem dashboard_date_resolution_witness :
    (dashboard [wRow] [] 1 0 (some 5)).selectedDate = 5 ∧
    mealsOn [wRow] 1 ((dashboard [wRow] [] 1 0 none).selectedDate) ≠ [] := by
  have h := dashboard_date_resolution [wRow] [] 1 0
  exact ⟨h.1 5, (h.2.2.2 (by decide) (by decide)).1⟩

/-! ## C8: day-view calorie totals -/

/-- C8: for every profile and resolved date, `total_calories` is the integer
sum of calories over all loaded rows and `checked_calories` is the sum
restricted to rows the profile marked prepared; all six slot groups are
always present, and a date with zero matching rows yields them all empty
with both totals zero — never an error (the builder is a total function). -/
theorem dashboard_totals (rows : List MealRow) (checks : List MealCheck)
    (pid : Nat) (today : Int) (view_date : Option Int) :
    (dashboard rows checks pid today view_date).total_calories
      = ((mealsOn rows pid
          ((dashboard rows checks pid today view_date).selectedDate)).map
            (fun m => m.calories)).sum ∧
    (dashboard rows checks pid today view_date).checked_calories
      = (((mealsOn rows pid
          ((dashboard rows checks pid today view_date).selectedDate)).filter
            (fun m => (checkedIdsFor checks pid).contains m.id)).map
              (fun m => m.calories)).sum ∧
    (dashboard rows checks pid today view_date).organized.map Prod.fst
      = MEAL_TYPE_ORDER ∧
    (mealsOn rows pid ((dashboard rows checks pid today view_date).selectedDate) = [] →
      (∀ g ∈ (dashboard rows checks pid today view_date).organized, g.2 = []) ∧
      (dashboard rows checks pid today view_date).total_calories = 0 ∧
      (dashboard rows checks pid today view_date).checked_calories = 0) := by
  refine ⟨buildDayView_total rows checks pid _, buildDayView_checked rows checks pid _,
    organizeMeals_fst _ _, ?_⟩
  intro h
  exact buildDayView_empty rows checks pid _ h

/-- Three meals of 350/420/480 kcal on day 0 for the C8 witness. -/
def exRows : List MealRow :=
  [⟨1, 0, "breakfast", "A", "", 350, 0, 0, 0, 0, none⟩,
   ⟨2, 0, "lunch", "B", "", 420, 0, 0, 0, 0, none⟩,
   ⟨3, 0, "dinner", "C", "", 480, 0, 0, 0, 0, none⟩]

/-- Profile 7 marked the 420-kcal meal prepared. -/
def exChecks : List MealCheck := [⟨7, 2, true⟩]

theorem dashboard_totals_witness :
    (dashboard exRows exChecks 7 0 (some 0)).total_calories = 1250 ∧
    (dashboard exRows exChecks 7 0 (some 0)).checked_calories = 420 := by
  have h := dashboard_totals exRows exChecks 7 0 (some 0)
  exact ⟨h.1.trans (by decide), h.2.1.trans (by decide)⟩

/-! ## C9: week view anchored to Monday, seven buckets always present -/

theorem historyStep_dates (checked : List Nat) (days : List HistoryDay)
    (meal : MealRow) :
    (historyStep checked days meal).map (fun d => d.date)
      = days.map (fun d => d.date) := by
  unfold historyStep
  rw [List.map_map]
  apply List.map_congr_left
  intro day hday
  by_cases h : day.date = meal.plan_date <;> simp [h]

theorem history_fold_dates (checked : List Nat) (ms : List MealRow) :
    ∀ days : List HistoryDay,
      ((ms.foldl (historyStep checked) days).map (fun d => d.date))
        = days.map (fun d => d.date) := by
  induction ms with
  | nil => intro days; rfl
  | cons m ms ih => intro days; rw [List.foldl_cons, ih, historyStep_dates]

/-- C9: for every week offset and current weekday, the week view covers the
seven consecutive dates starting at the Monday of the week shifted by
exactly `week_offset` whole weeks (offset 0 is the Monday of the current
week whatever weekday today is), and all seven day buckets are present even
when they hold no meals. -/
theorem history_week_anchor (rows : List MealRow) (checks : List MealCheck)
    (pid : Nat) (today : Int) (week_offset : Int) :
    (history rows checks pid today week_offset).length = 7 ∧
    (history rows checks pid today week_offset).map (fun d => d.date)
      = (List.range 7).map (fun i : Nat => startOfWeek today week_offset + (i : Int)) ∧
    startOfWeek today week_offset % 7 = 0 ∧
    startOfWeek today week_offset = startOfWeek today 0 + 7 * week_offset ∧
    startOfWeek today 0 ≤ today ∧ today < startOfWeek today 0 + 7 := by
  have hdates : (history rows checks pid today week_offset).map (fun d => d.date)
      = (List.range 7).map (fun i : Nat => startOfWeek today week_offset + (i : Int)) := by
    show ((List.insertionSort weekOrder
        (rows.filter (fun r => startOfWeek today week_offset ≤ r.plan_date ∧
          r.plan_date ≤ startOfWeek today week_offset + 6 ∧ visibleTo pid r))).foldl
        (historyStep (checkedIdsFor checks pid))
        ((List.range 7).map (fun i =>
          HistoryDay.mk (startOfWeek today week_offset + i) [] 0 0))).map
        (fun d => d.date)
      = (List.range 7).map (fun i : Nat => startOfWeek today week_offset + (i : Int))
    rw [history_fold_dates, List.map_map]
    apply List.map_congr_left
    intro i hi
    rfl
  refine ⟨?_, hdates, ?_, ?_, ?_, ?_⟩
  · have hlen := congrArg List.length hdates
    rw [List.length_map, List.length_map, List.length_range] at hlen
    exact hlen
  · show (today - today % 7 + 7 * week_offset) % 7 = 0
    omega
  · show today - today % 7 + 7 * week_offset
      = (today - today % 7 + 7 * 0) + 7 * week_offset
    omega
  · show today - today % 7 + 7 * 0 ≤ today
    omega
  · show today < today - today % 7 + 7 * 0 + 7
    omega

/-! ## C10: the admin edit leaves description and fiber untouched -/

/-- C10 (implicit frame property): `edit_meal` updates only the date, slot,
dish name, calories, protein, carbs, fat and profile scope of the targeted
row; every row's `description` and `fiber_g` are unchanged by every edit,
non-targeted rows are untouched, and no row is added or removed. -/
theorem edit_meal_frame (rows : List MealRow) (meal_id : Nat) (f : EditForm) :
    (edit_meal rows meal_id f).map (fun r => r.description)
      = rows.map (fun r => r.description) ∧
    (edit_meal rows meal_id f).map (fun r => r.fiber_g)
      = rows.map (fun r => r.fiber_g) ∧
    (edit_meal rows meal_id f).length = rows.length ∧
    (∀ r ∈ rows, r.id ≠ meal_id → r ∈ edit_meal rows meal_id f) ∧
    (∀ r ∈ rows, r.id = meal_id →
      { r with
        plan_date := f.plan_date, meal_type := f.meal_type,
        dish_name := pyStrip f.dish_name, calories := f.calories,
        protein_g := f.protein_g, carbs_g := f.carbs_g, fat_g := f.fat_g,
        profile_id := if f.profile_id > 0 then some f.profile_id else none }
        ∈ edit_meal rows meal_id f) := by
  unfold edit_meal
  refine ⟨?_, ?_, ?_, ?_, ?_⟩
  · rw [List.map_map]
    apply List.map_congr_left
    intro r hr
    by_cases h : r.id = meal_id <;> simp [h]
  · rw [List.map_map]
    apply List.map_congr_left
    intro r hr
    by_cases h : r.id = meal_id <;> simp [h]
  · rw [List.length_map]
  · intro r hr hne
    refine List.mem_map.2 ⟨r, hr, ?_⟩
    exact if_neg hne
  · intro r hr heq
    refine List.mem_map.2 ⟨r, hr, ?_⟩
    exact if_pos heq

/-- Row and form for the C10 witness: the edit changes everything it may
change, and `description` / `fiber_g` survive. -/
def edRow : MealRow := ⟨9, 1, "lunch", "Old", "keep me", 500, 1, 2, 3, 4, some 2⟩

/-- Edit form for the C10 witness. -/
def edForm : EditForm := ⟨2, "dinner", " New ", 600, 5, 6, 7, 0⟩

theorem edit_meal_frame_witness :
    (edit_meal [edRow] 9 edForm).map (fun r => r.description) = ["keep me"] ∧
    (edit_meal [edRow] 9 edForm).map (fun r => r.fiber_g) = [4] := by
  have h := edit_meal_frame [edRow] 9 edForm
  exact ⟨h.1.trans (by decide), h.2.1.trans (by decide)⟩
